import Mathlib

/-!
Shallow embedding of the LOT Platform borrow/return reservation engine
(Cloudflare Worker, D1-backed). The database is modelled as lists of rows;
each route handler becomes a pure function from a database state (plus the
current Unix time and exogenous inputs such as the generated QR code) to a
result and a new database state. Times are Unix seconds (Nat); the trust
score is an Int as in the `users.trust_score` column.

Sources embedded:
- src/unnamed/part_001 (subscriptions): `canUserBorrowItem`
- src/unnamed/part_002 (borrows): `createBorrow`, `returnItem`,
  `getOverdueBorrows` (the overdue sweep UPDATE)
- src/src/services/availability.ts: `isItemAvailable`
- src/src/services/progression.ts: `updateTrustScore`
- src/schema.sql: row shapes of `items`, `users`, `subscriptions`,
  `borrow_records`
-/

/-- Row of the `items` table (the fields the engine reads).
`available` is the DB integer flag (0 = false, nonzero treated as set). -/
structure Item where
  id : Nat
  riskLevel : String
  minLevelRequired : Nat
  available : Nat
deriving DecidableEq

/-- Row of the `users` table (the fields the engine reads/writes). -/
structure User where
  id : Nat
  level : Nat
  trustScore : Int
deriving DecidableEq

/-- Row of the `subscriptions` table (fields read by `canUserBorrowItem`).
`expiresAt` is NULL for BASIC plans, hence an `Option`. -/
structure Subscription where
  userId : Nat
  maxItems : Nat
  maxRiskLevel : String
  expiresAt : Option Nat
deriving DecidableEq

/-- Status column of `borrow_records`. -/
inductive BorrowStatus where
  | active
  | returned
  | overdue
deriving DecidableEq

/-- Row of the `borrow_records` table. -/
structure BorrowRecord where
  id : Nat
  userId : Nat
  itemId : Nat
  borrowedAt : Nat
  dueAt : Nat
  returnedAt : Option Nat
  conditionNotes : Option String
  qrCode : String
  status : BorrowStatus
deriving DecidableEq

/-- The D1 database state seen by the engine. -/
structure DB where
  items : List Item
  users : List User
  subscriptions : List Subscription
  borrows : List BorrowRecord
deriving DecidableEq

/-- The denial branches of `createBorrow` / `canUserBorrowItem`, one
constructor per `return error(...)` branch in the source. -/
inductive Deny where
  | invalidDuration
  | itemNotFound
  | itemUnavailable
  | insufficientLevel
  | subscriptionExpired
  | limitExceeded
  | riskNotPermitted
deriving DecidableEq

/-- Result of `createBorrow`: success carries borrow id, qr code, due time. -/
inductive CreateResult where
  | success (borrowId : Nat) (qrCode : String) (dueAt : Nat)
  | err (reason : Deny)
deriving DecidableEq

/-- The `condition` field of a return request (`'good' | 'damaged'`,
default `'good'`). -/
inductive Condition where
  | good
  | damaged
deriving DecidableEq

/-- Result of `returnItem`. -/
inductive ReturnResult where
  | notFound
  | alreadyReturned
  | returned (condition : Condition)
deriving DecidableEq

/-- `['low','medium','high'].indexOf(s)` from `canUserBorrowItem`
(−1 when not one of the three, as in JS). -/
def riskIndex (s : String) : Int :=
  if s == "low" then 0
  else if s == "medium" then 1
  else if s == "high" then 2
  else -1

/-- availability.ts `isItemAvailable`: the item row exists with a nonzero
`available` flag, and no `borrow_records` row for the item has status
`'active'` (the source's second query filters on `status = 'active'` only). -/
def isItemAvailable (db : DB) (itemId : Nat) : Bool :=
  match db.items.find? (fun it => it.id == itemId) with
  | none => false
  | some item =>
    if item.available == 0 then false
    else (db.borrows.find? (fun b => b.itemId == itemId && b.status == BorrowStatus.active)).isNone

/-- `SELECT ... FROM subscriptions WHERE user_id = ?` (`.first()`). -/
def subscriptionOf (db : DB) (u : Nat) : Option Subscription :=
  db.subscriptions.find? (fun s => s.userId == u)

/-- `subscription?.max_items ?? 1` (BASIC default). -/
def userMaxItems (db : DB) (u : Nat) : Nat :=
  ((subscriptionOf db u).map Subscription.maxItems).getD 1

/-- `subscription?.max_risk_level ?? 'low'` (BASIC default). -/
def userMaxRisk (db : DB) (u : Nat) : String :=
  ((subscriptionOf db u).map Subscription.maxRiskLevel).getD "low"

/-- `subscription?.expires_at && subscription.expires_at < Date.now()/1000`:
JS truthiness makes a missing row, a NULL `expires_at` and an `expires_at`
of 0 all non-expired. -/
def subExpired (db : DB) (now : Nat) (u : Nat) : Bool :=
  match subscriptionOf db u with
  | none => false
  | some s =>
    match s.expiresAt with
    | none => false
    | some e => e != 0 && decide (e < now)

/-- `SELECT id FROM borrow_records WHERE user_id = ? AND status = 'active'`
— the plan-limit count counts rows with status `'active'` only. -/
def activeCount (db : DB) (u : Nat) : Nat :=
  (db.borrows.filter (fun b => b.userId == u && b.status == BorrowStatus.active)).length

/-- subscriptions `canUserBorrowItem`: expiry check, then plan-limit check
on the active-row count, then risk-level check via `indexOf` comparison;
`none` means `{ allowed: true }`. -/
def canUserBorrowItem (db : DB) (now : Nat) (userId : Nat) (itemRiskLevel : String) : Option Deny :=
  if subExpired db now userId then some Deny.subscriptionExpired
  else if userMaxItems db userId ≤ activeCount db userId then some Deny.limitExceeded
  else if riskIndex (userMaxRisk db userId) < riskIndex itemRiskLevel then some Deny.riskNotPermitted
  else none

/-- `now + duration_days * 24 * 60 * 60` (seconds); `durationDays` has been
validated to be ≥ 1 before this is used. -/
def dueAtOf (now : Nat) (durationDays : Int) : Nat :=
  now + durationDays.toNat * 86400

/-- Auto-increment id for a fresh `borrow_records` row. -/
def nextBorrowId (db : DB) : Nat :=
  db.borrows.foldr (fun b m => max b.id m) 0 + 1

/-- The read-only check phase of `createBorrow`, in source order: duration
validation, item lookup, `isItemAvailable`, user-level check (a missing
user row takes the same error branch as an insufficient level), then
`canUserBorrowItem`. Every await before the INSERT performs only reads,
so `createBorrow` factors as this phase followed by `borrowEffects`. -/
def borrowChecks (db : DB) (now : Nat) (userId itemId : Nat) (durationDays : Int) : Option Deny :=
  if durationDays < 1 ∨ 30 < durationDays then some Deny.invalidDuration
  else
    match db.items.find? (fun it => it.id == itemId) with
    | none => some Deny.itemNotFound
    | some item =>
      if isItemAvailable db itemId = false then some Deny.itemUnavailable
      else
        match db.users.find? (fun us => us.id == userId) with
        | none => some Deny.insufficientLevel
        | some user =>
          if user.level < item.minLevelRequired then some Deny.insufficientLevel
          else canUserBorrowItem db now userId item.riskLevel

/-- The `'active'` row INSERTed by `createBorrow` (`borrowed_at` takes the
schema default `unixepoch()`, i.e. the current time). -/
def newBorrowRec (db : DB) (now : Nat) (userId itemId : Nat) (durationDays : Int) (qrCode : String) : BorrowRecord :=
  { id := nextBorrowId db, userId := userId, itemId := itemId,
    borrowedAt := now, dueAt := dueAtOf now durationDays,
    returnedAt := none, conditionNotes := none, qrCode := qrCode,
    status := BorrowStatus.active }

/-- The write phase of `createBorrow`: INSERT the `'active'` borrow row,
then `UPDATE items SET available = 0 WHERE id = ?`. -/
def borrowEffects (db : DB) (now : Nat) (userId itemId : Nat) (durationDays : Int) (qrCode : String) : DB :=
  { db with
    borrows := db.borrows ++ [newBorrowRec db now userId itemId durationDays qrCode],
    items := db.items.map (fun it => if it.id == itemId then { it with available := 0 } else it) }

/-- borrows `createBorrow` run as one sequential unit: checks, then (on
success) the insert and flag update. -/
def createBorrow (db : DB) (now : Nat) (userId itemId : Nat) (durationDays : Int) (qrCode : String) : CreateResult × DB :=
  match borrowChecks db now userId itemId durationDays with
  | some r => (CreateResult.err r, db)
  | none =>
    (CreateResult.success (nextBorrowId db) qrCode (dueAtOf now durationDays),
     borrowEffects db now userId itemId durationDays qrCode)

/-- `condition_notes || null`: the empty string is stored as NULL. -/
def storedNotes (notes : Option String) : Option String :=
  match notes with
  | none => none
  | some s => if s == "" then none else some s

/-- borrows `returnItem`: look the record up by id, reject a second return,
otherwise mark it returned, flip the item flag to 1, and apply the raw
condition-based trust update (`- 10` for damaged; `+ 2` guarded by
`trust_score < 200` for good — exactly the source SQL, with no clamp). -/
def returnItem (db : DB) (now : Nat) (borrowId : Nat) (notes : Option String) (condition : Condition) : ReturnResult × DB :=
  match db.borrows.find? (fun b => b.id == borrowId) with
  | none => (ReturnResult.notFound, db)
  | some borrow =>
    if borrow.status == BorrowStatus.returned then (ReturnResult.alreadyReturned, db)
    else
      let db1 : DB :=
        { db with
          borrows := db.borrows.map (fun b =>
            if b.id == borrowId then
              { b with returnedAt := some now, status := BorrowStatus.returned,
                       conditionNotes := storedNotes notes }
            else b),
          items := db.items.map (fun it =>
            if it.id == borrow.itemId then { it with available := 1 } else it) }
      let db2 : DB :=
        { db1 with users :=
            match condition with
            | Condition.damaged =>
              db1.users.map (fun us =>
                if us.id == borrow.userId then { us with trustScore := us.trustScore - 10 } else us)
            | Condition.good =>
              db1.users.map (fun us =>
                if us.id == borrow.userId && decide (us.trustScore < 200) then
                  { us with trustScore := us.trustScore + 2 }
                else us) }
      (ReturnResult.returned condition, db2)

/-- Per-row effect of the overdue sweep UPDATE in `getOverdueBorrows`:
`SET status = 'overdue' WHERE status = 'active' AND due_at < ?`. -/
def sweepRecord (now : Nat) (b : BorrowRecord) : BorrowRecord :=
  if b.status == BorrowStatus.active && decide (b.dueAt < now) then
    { b with status := BorrowStatus.overdue }
  else b

/-- The state change performed by `getOverdueBorrows` (the sweep UPDATE);
the subsequent SELECT is read-only. -/
def sweepOverdue (db : DB) (now : Nat) : DB :=
  { db with borrows := db.borrows.map (sweepRecord now) }

/-- Number of rows the sweep UPDATE transitions (its affected-row count). -/
def overdueTransitionCount (db : DB) (now : Nat) : Nat :=
  (db.borrows.filter (fun b => b.status == BorrowStatus.active && decide (b.dueAt < now))).length

/-- progression.ts `updateTrustScore`:
`SET trust_score = MAX(0, MIN(200, trust_score + ?))`. -/
def updateTrustScore (db : DB) (userId : Nat) (delta : Int) : DB :=
  { db with users := db.users.map (fun u =>
      if u.id == userId then { u with trustScore := max 0 (min 200 (u.trustScore + delta)) } else u) }

/-- `SELECT trust_score FROM users WHERE id = ?`. -/
def userTrustScore (db : DB) (userId : Nat) : Option Int :=
  (db.users.find? (fun u => u.id == userId)).map User.trustScore

/-- A borrow row holds `itemId` when it is for that item and non-terminal
(status `active` or `overdue`). -/
def isHolder (itemId : Nat) (b : BorrowRecord) : Bool :=
  b.itemId == itemId && (b.status == BorrowStatus.active || b.status == BorrowStatus.overdue)

/-- Number of non-terminal reservations for an item. -/
def holderCount (db : DB) (itemId : Nat) : Nat :=
  (db.borrows.filter (isHolder itemId)).length

/-- The at-most-one-holder invariant. -/
def atMostOneHolder (db : DB) : Prop :=
  ∀ itemId : Nat, holderCount db itemId ≤ 1

/-- Availability-flag consistency: an item flag is 0 exactly when a
non-terminal reservation for the item exists. -/
def flagConsistent (db : DB) : Prop :=
  ∀ it ∈ db.items, (it.available = 0 ↔ ∃ b ∈ db.borrows, isHolder it.id b = true)

/-! ## Shared list lemmas -/

/-- Mapping a function that can only falsify a predicate never increases
the filtered length. -/
lemma length_filter_map_le {α : Type} (p : α → Bool) (f : α → α)
    (h : ∀ a, p (f a) = true → p a = true) :
    ∀ l : List α, ((l.map f).filter p).length ≤ (l.filter p).length := by
  intro l
  induction l with
  | nil => simp
  | cons a t ih =>
    simp only [List.map_cons, List.filter_cons]
    by_cases hfa : p (f a) = true
    · rw [if_pos hfa, if_pos (h a hfa)]
      simpa using ih
    · rw [if_neg hfa]
      by_cases hpa : p a = true
      · rw [if_pos hpa]
        exact Nat.le_succ_of_le ih
      · rw [if_neg hpa]
        exact ih

/-- Mapping a predicate-preserving function preserves the filtered length. -/
lemma length_filter_map_eq {α : Type} (p : α → Bool) (f : α → α)
    (h : ∀ a, p (f a) = p a) :
    ∀ l : List α, ((l.map f).filter p).length = (l.filter p).length := by
  intro l
  induction l with
  | nil => simp
  | cons a t ih =>
    simp only [List.map_cons, List.filter_cons, h a]
    by_cases hpa : p a = true
    · rw [if_pos hpa, if_pos hpa]
      simpa using ih
    · rw [if_neg hpa, if_neg hpa]
      exact ih

/-- A filter over elements on which the predicate is false has length 0. -/
lemma length_filter_eq_zero {α : Type} (p : α → Bool) :
    ∀ l : List α, (∀ a ∈ l, p a = false) → (l.filter p).length = 0 := by
  intro l
  induction l with
  | nil => intro _; simp
  | cons a t ih =>
    intro h
    have ha := h a (by simp)
    have ht : ∀ x ∈ t, p x = false := fun x hx => h x (by simp [hx])
    simp [List.filter_cons, ha, ih ht]

/-! ## Facts about the check phase of createBorrow -/

/-- When the check phase passes, the availability check passed. -/
lemma borrowChecks_none_available {db : DB} {now u i : Nat} {d : Int}
    (h : borrowChecks db now u i d = none) : isItemAvailable db i = true := by
  unfold borrowChecks at h
  split at h
  · exact absurd h (by simp)
  · split at h
    · exact absurd h (by simp)
    · split at h
      · exact absurd h (by simp)
      · next hav =>
        simpa using hav

/-- Under flag consistency, a passing availability check means the item has
no non-terminal reservation at all (the flag being set rules out overdue
rows even though the query only filters on active rows). -/
lemma holderCount_zero_of_available {db : DB} {i : Nat}
    (hc : flagConsistent db) (h : isItemAvailable db i = true) :
    holderCount db i = 0 := by
  unfold isItemAvailable at h
  cases hfind : db.items.find? (fun it => it.id == i) with
  | none => rw [hfind] at h; simp at h
  | some item =>
    rw [hfind] at h
    dsimp only at h
    by_cases hav : (item.available == 0) = true
    · rw [if_pos hav] at h; simp at h
    · have hmem : item ∈ db.items := List.mem_of_find?_eq_some hfind
      have hid : item.id = i := by
        have hp := List.find?_some hfind
        simpa using hp
      have hne : ¬ item.available = 0 := by simpa using hav
      have hnoh : ¬ ∃ b ∈ db.borrows, isHolder item.id b = true := by
        intro hex
        exact hne ((hc item hmem).mpr hex)
      apply length_filter_eq_zero
      intro b hb
      cases hih : isHolder i b with
      | false => rfl
      | true => exact ((hnoh ⟨b, hb, by rw [hid]; exact hih⟩)).elim

/-- The freshly inserted row is a holder row exactly for the reserved item. -/
lemma isHolder_newBorrowRec (db : DB) (now u i : Nat) (d : Int) (qr : String) (j : Nat) :
    isHolder j (newBorrowRec db now u i d qr) = (i == j) := by
  simp [isHolder, newBorrowRec]

/-- Holder counts after the write phase of createBorrow: the reserved item
gains exactly one non-terminal row, every other item is untouched. -/
lemma holderCount_borrowEffects (db : DB) (now u i : Nat) (d : Int) (qr : String) (j : Nat) :
    holderCount (borrowEffects db now u i d qr) j =
      holderCount db j + (if i == j then 1 else 0) := by
  unfold holderCount borrowEffects
  simp only [List.filter_append, List.length_append, List.filter_cons,
    List.filter_nil, isHolder_newBorrowRec]
  by_cases hij : (i == j) = true
  · simp [hij]
  · simp [hij]

/-- Returning can only remove non-terminal rows, never add them. -/
lemma holderCount_returnItem_le (db : DB) (now bid : Nat) (notes : Option String) (c : Condition) (j : Nat) :
    holderCount (returnItem db now bid notes c).2 j ≤ holderCount db j := by
  unfold returnItem
  cases hfind : db.borrows.find? (fun b => b.id == bid) with
  | none => simp [holderCount]
  | some borrow =>
    dsimp only
    by_cases hret : (borrow.status == BorrowStatus.returned) = true
    · rw [if_pos hret]
    · rw [if_neg hret]
      unfold holderCount
      cases c <;>
      · dsimp only
        apply length_filter_map_le
        intro b hb
        by_cases hbid : (b.id == bid) = true
        · rw [if_pos hbid] at hb
          simp [isHolder] at hb
        · rw [if_neg hbid] at hb
          exact hb

/-- The sweep maps active past-due rows to overdue rows, so it preserves
every per-item holder count exactly. -/
lemma holderCount_sweep (db : DB) (now : Nat) (j : Nat) :
    holderCount (sweepOverdue db now) j = holderCount db j := by
  unfold holderCount sweepOverdue
  dsimp only
  apply length_filter_map_eq
  intro b
  unfold sweepRecord
  by_cases hcond : (b.status == BorrowStatus.active && decide (b.dueAt < now)) = true
  · rw [if_pos hcond]
    have hact : b.status = BorrowStatus.active := by
      have hx := hcond
      simp only [Bool.and_eq_true, beq_iff_eq, decide_eq_true_eq] at hx
      exact hx.1
    simp [isHolder, hact]
  · rw [if_neg hcond]

/-- C1: in any state satisfying the at-most-one-holder invariant together
with availability-flag consistency, each core operation run sequentially —
createBorrow (reserve), returnItem (return) and the overdue sweep of
getOverdueBorrows — leaves a state in which every item still has at most
one reservation with status active or overdue. -/
theorem atMostOne_holder_preserved_by_core_ops
    (db : DB) (now userId itemId borrowId : Nat) (d : Int) (qr : String)
    (notes : Option String) (c : Condition)
    (h1 : atMostOneHolder db) (h2 : flagConsistent db) :
    atMostOneHolder (createBorrow db now userId itemId d qr).2 ∧
    atMostOneHolder (returnItem db now borrowId notes c).2 ∧
    atMostOneHolder (sweepOverdue db now) := by
  refine ⟨?_, ?_, ?_⟩
  · cases hchk : borrowChecks db now userId itemId d with
    | some r =>
      intro j
      simpa [createBorrow, hchk] using h1 j
    | none =>
      intro j
      have havail := borrowChecks_none_available hchk
      have hzero := holderCount_zero_of_available h2 havail
      have hstate : (createBorrow db now userId itemId d qr).2 = borrowEffects db now userId itemId d qr := by
        simp [createBorrow, hchk]
      rw [hstate, holderCount_borrowEffects]
      by_cases hij : (itemId == j) = true
      · have hj : itemId = j := by simpa using hij
        rw [if_pos hij, ← hj, hzero]
      · rw [if_neg hij]
        simpa using h1 j
  · intro j
    exact le_trans (holderCount_returnItem_le db now borrowId notes c j) (h1 j)
  · intro j
    rw [holderCount_sweep]
    exact h1 j

/-- A small concrete state with one available item, one user and no
borrow rows; both hypotheses of the C1 theorem hold for it. -/
def seedDb : DB :=
  { items := [{ id := 1, riskLevel := "low", minLevelRequired := 1, available := 1 }],
    users := [{ id := 1, level := 2, trustScore := 100 }],
    subscriptions := [],
    borrows := [] }

/-- Witness for C1 at a concrete state. -/
theorem atMostOne_holder_preserved_witness :
    atMostOneHolder (createBorrow seedDb 100 1 1 7 "QR").2 ∧
    atMostOneHolder (returnItem seedDb 100 1 none Condition.good).2 ∧
    atMostOneHolder (sweepOverdue seedDb 100) :=
  atMostOne_holder_preserved_by_core_ops seedDb 100 1 1 1 7 "QR" none Condition.good
    (fun j => by simp [holderCount, seedDb])
    (by unfold flagConsistent; decide)

/-! ## C2: the concurrency claim -/

/-- Concrete state for the reserve race: one available item, two users,
no subscription rows, no borrow rows. -/
def raceDb : DB :=
  { items := [{ id := 1, riskLevel := "low", minLevelRequired := 1, available := 1 }],
    users := [{ id := 1, level := 1, trustScore := 100 },
              { id := 2, level := 1, trustScore := 100 }],
    subscriptions := [],
    borrows := [] }

/-- C2 is violated by the code: every await in createBorrow before the
INSERT is a read, so in the legal interleaving where both requests finish
their check phases before either write phase starts, both check phases
pass on the initial state, both write phases then run unconditionally, and
the final state holds two active reservations for item 1 — neither request
observes a Conflict. -/
theorem concurrent_reserve_both_succeed :
    borrowChecks raceDb 1000 1 1 7 = none ∧
    borrowChecks raceDb 1000 2 1 7 = none ∧
    holderCount (borrowEffects (borrowEffects raceDb 1000 1 1 7 "QRA") 1000 2 1 7 "QRB") 1 = 2 ∧
    ¬ atMostOneHolder (borrowEffects (borrowEffects raceDb 1000 1 1 7 "QRA") 1000 2 1 7 "QRB") :=
  ⟨by decide, by decide, by decide, fun h => absurd (h 1) (by decide)⟩

/-! ## C3: trust-score bounds -/

/-- Concrete state: user 1 has trust score 199 and an active borrow. -/
def trustHighDb : DB :=
  { items := [{ id := 1, riskLevel := "low", minLevelRequired := 1, available := 0 }],
    users := [{ id := 1, level := 1, trustScore := 199 }],
    subscriptions := [],
    borrows := [{ id := 1, userId := 1, itemId := 1, borrowedAt := 0, dueAt := 700,
                  returnedAt := none, conditionNotes := none, qrCode := "Q1",
                  status := BorrowStatus.active }] }

/-- Concrete state: user 1 has trust score 5 and an active borrow. -/
def trustLowDb : DB :=
  { items := [{ id := 1, riskLevel := "low", minLevelRequired := 1, available := 0 }],
    users := [{ id := 1, level := 1, trustScore := 5 }],
    subscriptions := [],
    borrows := [{ id := 1, userId := 1, itemId := 1, borrowedAt := 0, dueAt := 700,
                  returnedAt := none, conditionNotes := none, qrCode := "Q1",
                  status := BorrowStatus.overdue }] }

/-- C3 is violated by returnItem: the good-return update adds 2 under a
`trust_score < 200` guard, so 199 becomes 201; the damaged-return update
subtracts 10 with no lower guard, so 5 becomes −5. updateTrustScore, by
contrast, clamps to [0, 200] as the claim states: the same deltas through
it give 200 and 0. -/
theorem returnItem_trust_escapes_bounds :
    userTrustScore (returnItem trustHighDb 600 1 none Condition.good).2 1 = some 201 ∧
    userTrustScore (updateTrustScore trustHighDb 1 2) 1 = some 200 ∧
    userTrustScore (returnItem trustLowDb 600 1 none Condition.damaged).2 1 = some (-5) ∧
    userTrustScore (updateTrustScore trustLowDb 1 (-10)) 1 = some 0 :=
  ⟨by decide, by decide, by decide, by decide⟩

/-! ## C4: the isItemAvailable contract -/

/-- Concrete state: the item flag is still set although an overdue
reservation exists for the item. -/
def overdueFlagDb : DB :=
  { items := [{ id := 1, riskLevel := "low", minLevelRequired := 1, available := 1 }],
    users := [{ id := 1, level := 1, trustScore := 100 }],
    subscriptions := [],
    borrows := [{ id := 1, userId := 1, itemId := 1, borrowedAt := 0, dueAt := 50,
                  returnedAt := none, conditionNotes := none, qrCode := "Q1",
                  status := BorrowStatus.overdue }] }

/-- C4 counterexample: an overdue reservation exists for item 1, yet
isItemAvailable returns true because its query filters on status 'active'
only; the claim requires false whenever an active-or-overdue reservation
exists, regardless of the flag. -/
theorem isItemAvailable_ignores_overdue :
    isItemAvailable overdueFlagDb 1 = true ∧
    (∃ b ∈ overdueFlagDb.borrows, b.itemId = 1 ∧ b.status = BorrowStatus.overdue) :=
  ⟨by decide, by decide⟩

/-- C4 amended: isItemAvailable returns true iff the item row exists with a
nonzero availability flag and no reservation with status 'active' exists
for the item; reservations with status 'overdue' are not consulted. -/
theorem isItemAvailable_characterization (db : DB) (i : Nat) :
    isItemAvailable db i = true ↔
      (∃ item, db.items.find? (fun it => it.id == i) = some item ∧ item.available ≠ 0) ∧
      ∀ b ∈ db.borrows, ¬(b.itemId = i ∧ b.status = BorrowStatus.active) := by
  unfold isItemAvailable
  cases hfind : db.items.find? (fun it => it.id == i) with
  | none =>
    dsimp only
    constructor
    · intro h; simp at h
    · rintro ⟨⟨item2, hi2, _⟩, _⟩
      simp at hi2
  | some item =>
    dsimp only
    by_cases hav : (item.available == 0) = true
    · rw [if_pos hav]
      have hava : item.available = 0 := by simpa using hav
      constructor
      · intro h; simp at h
      · rintro ⟨⟨item2, hi2, hne⟩, _⟩
        rw [Option.some.injEq] at hi2
        exact absurd (hi2 ▸ hava) hne
    · rw [if_neg hav]
      have hava : ¬ item.available = 0 := by simpa using hav
      rw [Option.isNone_iff_eq_none, List.find?_eq_none]
      constructor
      · intro h
        refine ⟨⟨item, rfl, hava⟩, ?_⟩
        intro b hb hcontra
        have hx := h b hb
        simp [hcontra.1, hcontra.2] at hx
      · rintro ⟨_, hforall⟩ b hb hp
        simp only [Bool.and_eq_true, beq_iff_eq] at hp
        exact hforall b hb ⟨hp.1, hp.2⟩

/-- Witness for the amended C4 statement at a concrete state. -/
theorem isItemAvailable_characterization_witness :
    isItemAvailable seedDb 1 = true ↔
      (∃ item, seedDb.items.find? (fun it => it.id == 1) = some item ∧ item.available ≠ 0) ∧
      ∀ b ∈ seedDb.borrows, ¬(b.itemId = 1 ∧ b.status = BorrowStatus.active) :=
  isItemAvailable_characterization seedDb 1

/-! ## Characterization of canUserBorrowItem (shared lemmas) -/

/-- The expiry denial fires exactly when the expiry check is truthy. -/
lemma canUserBorrowItem_expired_iff (db : DB) (now u : Nat) (r : String) :
    canUserBorrowItem db now u r = some Deny.subscriptionExpired ↔ subExpired db now u = true := by
  unfold canUserBorrowItem
  split_ifs with he hl hr <;> simp_all

/-- The limit denial fires exactly when the expiry check passes and the
active-row count has reached the plan maximum. -/
lemma canUserBorrowItem_limit_iff (db : DB) (now u : Nat) (r : String) :
    canUserBorrowItem db now u r = some Deny.limitExceeded ↔
      subExpired db now u = false ∧ userMaxItems db u ≤ activeCount db u := by
  unfold canUserBorrowItem
  split_ifs with he hl hr <;> simp_all

/-- The risk denial fires exactly when expiry and limit pass and the item
risk index exceeds the plan's risk index. -/
lemma canUserBorrowItem_risk_iff (db : DB) (now u : Nat) (r : String) :
    canUserBorrowItem db now u r = some Deny.riskNotPermitted ↔
      subExpired db now u = false ∧ activeCount db u < userMaxItems db u ∧
      riskIndex (userMaxRisk db u) < riskIndex r := by
  unfold canUserBorrowItem
  split_ifs with he hl hr <;> simp_all [not_le]

/-- The request is allowed exactly when all three checks pass. -/
lemma canUserBorrowItem_allowed_iff (db : DB) (now u : Nat) (r : String) :
    canUserBorrowItem db now u r = none ↔
      subExpired db now u = false ∧ activeCount db u < userMaxItems db u ∧
      riskIndex r ≤ riskIndex (userMaxRisk db u) := by
  unfold canUserBorrowItem
  split_ifs with he hl hr <;> simp_all [not_le, not_lt]

/-! ## C5: the order of eligibility checks -/

/-- Concrete state for the C5 counterexample: at time 100 user 1 has an
expired subscription (expires_at 10) AND is at the plan limit (one active
borrow against max_items 1). -/
def expiredAtLimitDb : DB :=
  { items := [{ id := 2, riskLevel := "low", minLevelRequired := 1, available := 0 }],
    users := [{ id := 1, level := 3, trustScore := 100 }],
    subscriptions := [{ userId := 1, maxItems := 1, maxRiskLevel := "low", expiresAt := some 10 }],
    borrows := [{ id := 1, userId := 1, itemId := 2, borrowedAt := 0, dueAt := 700,
                  returnedAt := none, conditionNotes := none, qrCode := "Q1",
                  status := BorrowStatus.active }] }

/-- C5 counterexample: the limit check also fails here, so under the
claimed order (limit first) the denial would be the limit reason, but the
code checks expiry first and returns the subscription-expired denial. -/
theorem eligibility_order_counterexample :
    canUserBorrowItem expiredAtLimitDb 100 1 "low" = some Deny.subscriptionExpired ∧
    userMaxItems expiredAtLimitDb 1 ≤ activeCount expiredAtLimitDb 1 ∧
    Deny.subscriptionExpired ≠ Deny.limitExceeded := by
  refine ⟨by decide, by decide, by decide⟩

/-- C5 amended: the first failing check still determines the reason, but
the actual order is: inside createBorrow the user-level check runs before
any subscription rule, and inside canUserBorrowItem the order is
(1) subscription expiry, (2) plan-limit count, (3) risk tier; the request
is allowed when none fails. -/
theorem eligibility_checks_order (db : DB) (now u i : Nat) (r : String) (d : Int) (qr : String) :
    (canUserBorrowItem db now u r = some Deny.subscriptionExpired ↔
      subExpired db now u = true) ∧
    (canUserBorrowItem db now u r = some Deny.limitExceeded ↔
      subExpired db now u = false ∧ userMaxItems db u ≤ activeCount db u) ∧
    (canUserBorrowItem db now u r = some Deny.riskNotPermitted ↔
      subExpired db now u = false ∧ activeCount db u < userMaxItems db u ∧
      riskIndex (userMaxRisk db u) < riskIndex r) ∧
    (canUserBorrowItem db now u r = none ↔
      subExpired db now u = false ∧ activeCount db u < userMaxItems db u ∧
      riskIndex r ≤ riskIndex (userMaxRisk db u)) ∧
    (∀ item user, db.items.find? (fun it => it.id == i) = some item →
      isItemAvailable db i = true →
      db.users.find? (fun us => us.id == u) = some user →
      user.level < item.minLevelRequired →
      1 ≤ d → d ≤ 30 →
      (createBorrow db now u i d qr).1 = CreateResult.err Deny.insufficientLevel) := by
  refine ⟨canUserBorrowItem_expired_iff db now u r,
          canUserBorrowItem_limit_iff db now u r,
          canUserBorrowItem_risk_iff db now u r,
          canUserBorrowItem_allowed_iff db now u r, ?_⟩
  intro item user hitem havail huser hlvl hd1 hd30
  have hchk : borrowChecks db now u i d = some Deny.insufficientLevel := by
    unfold borrowChecks
    rw [if_neg (by omega), hitem]
    dsimp only
    rw [if_neg (by simp [havail]), huser]
    dsimp only
    rw [if_pos hlvl]
  simp [createBorrow, hchk]

/-- Concrete state: user 1 at level 1, item 1 requires level 4, and user 1
also has an expired subscription — the level denial wins. -/
def lowLevelDb : DB :=
  { items := [{ id := 1, riskLevel := "high", minLevelRequired := 4, available := 1 }],
    users := [{ id := 1, level := 1, trustScore := 100 }],
    subscriptions := [{ userId := 1, maxItems := 1, maxRiskLevel := "low", expiresAt := some 10 }],
    borrows := [] }

/-- Witness for the amended C5 statement: the expiry branch and the
level-before-subscription ordering, both at concrete inputs. -/
theorem eligibility_checks_order_witness :
    canUserBorrowItem lowLevelDb 100 1 "high" = some Deny.subscriptionExpired ∧
    (createBorrow lowLevelDb 100 1 1 7 "QR").1 = CreateResult.err Deny.insufficientLevel :=
  ⟨(eligibility_checks_order lowLevelDb 100 1 1 "high" 7 "QR").1.mpr (by decide),
   (eligibility_checks_order lowLevelDb 100 1 1 "high" 7 "QR").2.2.2.2
     { id := 1, riskLevel := "high", minLevelRequired := 4, available := 1 }
     { id := 1, level := 1, trustScore := 100 }
     (by decide) (by decide) (by decide) (by decide) (by decide) (by decide)⟩

/-! ## C6: what counts toward the plan limit -/

/-- Concrete state: user 1 has one active borrow already past due at time
100, and no subscription row (BASIC default max_items 1). -/
def overdueUserDb : DB :=
  { items := [{ id := 1, riskLevel := "low", minLevelRequired := 1, available := 0 },
              { id := 2, riskLevel := "low", minLevelRequired := 1, available := 1 }],
    users := [{ id := 1, level := 1, trustScore := 100 }],
    subscriptions := [],
    borrows := [{ id := 1, userId := 1, itemId := 1, borrowedAt := 0, dueAt := 50,
                  returnedAt := none, conditionNotes := none, qrCode := "Q1",
                  status := BorrowStatus.active }] }

/-- C6 counterexample: after the sweep at time 100 the user's only
reservation is overdue; the claim says it still counts toward the BASIC
max of 1 so a new reserve must be denied, but the count query filters on
status 'active' only and the eligibility evaluation allows the request. -/
theorem overdue_not_counted_counterexample :
    ((sweepOverdue overdueUserDb 100).borrows.filter
        (fun b => b.userId == 1 && b.status == BorrowStatus.overdue)).length = 1 ∧
    userMaxItems (sweepOverdue overdueUserDb 100) 1 = 1 ∧
    canUserBorrowItem (sweepOverdue overdueUserDb 100) 100 1 "low" = none := by
  refine ⟨by decide, by decide, by decide⟩

/-- C6 amended: the plan-limit count counts only reservations with status
'active': adding an overdue record changes neither the count nor the
eligibility result, so a reservation swept from active to overdue stops
counting toward the user's max concurrent items. -/
theorem overdue_reservation_not_counted (db : DB) (now u : Nat) (r : String) (b : BorrowRecord)
    (hb : b.status = BorrowStatus.overdue) :
    activeCount { db with borrows := b :: db.borrows } u = activeCount db u ∧
    canUserBorrowItem { db with borrows := b :: db.borrows } now u r =
      canUserBorrowItem db now u r := by
  have hcnt : activeCount { db with borrows := b :: db.borrows } u = activeCount db u := by
    unfold activeCount
    dsimp only
    rw [List.filter_cons, if_neg (by simp [hb])]
  refine ⟨hcnt, ?_⟩
  unfold canUserBorrowItem
  rw [hcnt]
  exact rfl

/-- An overdue record used by the C6 witness. -/
def strayOverdueRec : BorrowRecord :=
  { id := 9, userId := 1, itemId := 1, borrowedAt := 0, dueAt := 50,
    returnedAt := none, conditionNotes := none, qrCode := "Q9",
    status := BorrowStatus.overdue }

/-- Witness for the amended C6 statement at a concrete state. -/
theorem overdue_reservation_not_counted_witness :
    activeCount { seedDb with borrows := strayOverdueRec :: seedDb.borrows } 1 = activeCount seedDb 1 ∧
    canUserBorrowItem { seedDb with borrows := strayOverdueRec :: seedDb.borrows } 100 1 "low" =
      canUserBorrowItem seedDb 100 1 "low" :=
  overdue_reservation_not_counted seedDb 100 1 "low" strayOverdueRec (by decide)

/-! ## C7: the overdue sweep -/

/-- The sweep per-row function is idempotent. -/
lemma sweepRecord_idem (now : Nat) (b : BorrowRecord) :
    sweepRecord now (sweepRecord now b) = sweepRecord now b := by
  by_cases hc : (b.status == BorrowStatus.active && decide (b.dueAt < now)) = true
  · simp [sweepRecord, hc]
  · simp [sweepRecord, hc]

/-- Mapping the sweep twice over a row list equals mapping it once. -/
lemma sweep_map_idem (now : Nat) :
    ∀ l : List BorrowRecord,
      (l.map (sweepRecord now)).map (sweepRecord now) = l.map (sweepRecord now) := by
  intro l
  induction l with
  | nil => rfl
  | cons a t ih => simp only [List.map_cons, sweepRecord_idem, ih]

/-- C7: the sweep transitions exactly the rows with status active and due
time before now to overdue, leaves every row whose status is not active
(in particular overdue and returned rows) and every row not yet due
unchanged, and is idempotent: a second run at the same instant returns the
identical state and its UPDATE matches zero rows. -/
theorem sweepOverdue_exact_and_idempotent (db : DB) (now : Nat) :
    (∀ b : BorrowRecord,
      (b.status = BorrowStatus.active → b.dueAt < now →
        sweepRecord now b = { b with status := BorrowStatus.overdue }) ∧
      (b.status ≠ BorrowStatus.active → sweepRecord now b = b) ∧
      (¬ b.dueAt < now → sweepRecord now b = b)) ∧
    sweepOverdue (sweepOverdue db now) now = sweepOverdue db now ∧
    overdueTransitionCount (sweepOverdue db now) now = 0 := by
  refine ⟨?_, ?_, ?_⟩
  · intro b
    refine ⟨?_, ?_, ?_⟩
    · intro h1 h2
      unfold sweepRecord
      rw [if_pos (by simp [h1, h2])]
    · intro h
      unfold sweepRecord
      rw [if_neg (by simp [h])]
    · intro h
      unfold sweepRecord
      rw [if_neg (by simp [h])]
  · unfold sweepOverdue
    dsimp only
    rw [sweep_map_idem]
  · unfold overdueTransitionCount sweepOverdue
    dsimp only
    apply length_filter_eq_zero
    intro b hb
    rcases List.mem_map.mp hb with ⟨a, _, rfl⟩
    by_cases hc : (a.status == BorrowStatus.active && decide (a.dueAt < now)) = true
    · simp [sweepRecord, hc]
    · simp only [sweepRecord, if_neg hc]
      simpa using hc

/-- The active past-due record of overdueUserDb. -/
def pastDueRec : BorrowRecord :=
  { id := 1, userId := 1, itemId := 1, borrowedAt := 0, dueAt := 50,
    returnedAt := none, conditionNotes := none, qrCode := "Q1",
    status := BorrowStatus.active }

/-- Witness for C7 at a concrete state and row. -/
theorem sweepOverdue_exact_and_idempotent_witness :
    sweepRecord 100 pastDueRec = { pastDueRec with status := BorrowStatus.overdue } ∧
    sweepOverdue (sweepOverdue overdueUserDb 100) 100 = sweepOverdue overdueUserDb 100 ∧
    overdueTransitionCount (sweepOverdue overdueUserDb 100) 100 = 0 :=
  ⟨((sweepOverdue_exact_and_idempotent overdueUserDb 100).1 pastDueRec).1 (by decide) (by decide),
   (sweepOverdue_exact_and_idempotent overdueUserDb 100).2.1,
   (sweepOverdue_exact_and_idempotent overdueUserDb 100).2.2⟩

/-! ## C8: denied reserve leaves the state unchanged -/

/-- C8: whenever createBorrow returns any denial — item not found, item
unavailable, insufficient level, invalid duration or a subscription-rule
failure — the resulting state equals the input state: no borrow row is
inserted, no item flag is changed, nothing else is modified. -/
theorem createBorrow_denied_no_effect (db : DB) (now u i : Nat) (d : Int) (qr : String) (r : Deny)
    (h : (createBorrow db now u i d qr).1 = CreateResult.err r) :
    (createBorrow db now u i d qr).2 = db := by
  cases hchk : borrowChecks db now u i d with
  | some x => simp [createBorrow, hchk]
  | none => simp [createBorrow, hchk] at h

/-- Witness for C8: a concrete denied reserve (item 99 does not exist). -/
theorem createBorrow_denied_no_effect_witness :
    (createBorrow seedDb 100 1 99 7 "QR").2 = seedDb :=
  createBorrow_denied_no_effect seedDb 100 1 99 7 "QR" Deny.itemNotFound (by decide)

/-! ## C9: duration validation and the due time -/

/-- A passing check phase implies the duration was in range. -/
lemma borrowChecks_none_duration {db : DB} {now u i : Nat} {d : Int}
    (h : borrowChecks db now u i d = none) : ¬ (d < 1 ∨ 30 < d) := by
  intro hd
  unfold borrowChecks at h
  rw [if_pos hd] at h
  simp at h

/-- C9: a duration outside [1, 30] is rejected with the invalid-duration
error and the state is unchanged; on success the duration was in range and
the single inserted row has borrowed_at = now (its creation time) and
due_at = now + durationDays·86400 seconds, which is also the due time
returned to the caller. -/
theorem createBorrow_duration_contract (db : DB) (now u i : Nat) (d : Int) (qr : String) :
    ((d < 1 ∨ 30 < d) → createBorrow db now u i d qr = (CreateResult.err Deny.invalidDuration, db)) ∧
    (∀ bid q due, (createBorrow db now u i d qr).1 = CreateResult.success bid q due →
      1 ≤ d ∧ d ≤ 30 ∧
      (createBorrow db now u i d qr).2.borrows = db.borrows ++ [newBorrowRec db now u i d qr] ∧
      (newBorrowRec db now u i d qr).borrowedAt = now ∧
      (newBorrowRec db now u i d qr).dueAt = now + d.toNat * 86400 ∧
      due = now + d.toNat * 86400) := by
  constructor
  · intro h
    have hchk : borrowChecks db now u i d = some Deny.invalidDuration := by
      unfold borrowChecks
      rw [if_pos h]
    simp [createBorrow, hchk]
  · intro bid q due h
    cases hchk : borrowChecks db now u i d with
    | some x => simp [createBorrow, hchk] at h
    | none =>
      have hdur := borrowChecks_none_duration hchk
      simp only [createBorrow, hchk] at h ⊢
      have hdue : due = dueAtOf now d := by
        have := h
        simp only [CreateResult.success.injEq] at this
        exact this.2.2.symm
      refine ⟨by omega, by omega, rfl, rfl, rfl, ?_⟩
      rw [hdue]
      rfl

/-- Witness for C9: a rejected 31-day request and an accepted 7-day request
whose due time is 1000 + 604800. -/
theorem createBorrow_duration_contract_witness :
    createBorrow seedDb 1000 1 1 31 "QR" = (CreateResult.err Deny.invalidDuration, seedDb) ∧
    (1 ≤ (7 : Int) ∧ (7 : Int) ≤ 30 ∧
      (createBorrow seedDb 1000 1 1 7 "QR").2.borrows =
        seedDb.borrows ++ [newBorrowRec seedDb 1000 1 1 7 "QR"] ∧
      (newBorrowRec seedDb 1000 1 1 7 "QR").borrowedAt = 1000 ∧
      (newBorrowRec seedDb 1000 1 1 7 "QR").dueAt = 1000 + (7 : Int).toNat * 86400 ∧
      605800 = 1000 + (7 : Int).toNat * 86400) :=
  ⟨(createBorrow_duration_contract seedDb 1000 1 1 31 "QR").1 (by decide),
   (createBorrow_duration_contract seedDb 1000 1 1 7 "QR").2 1 "QR" 605800 (by decide)⟩

/-! ## C10: missing subscription row means BASIC defaults -/

/-- C10: with no subscription row the eligibility evaluation uses the BASIC
defaults (max 1 item, max risk 'low', no expiry): the subscription-expired
denial is impossible for such a user and the user is allowed when they
have no active reservation and the item risk is 'low'; conversely a
subscription-expired denial implies a subscription row whose expires_at is
set and strictly before now. -/
theorem no_subscription_basic_defaults (db : DB) (now u : Nat) (r : String) :
    (subscriptionOf db u = none →
      userMaxItems db u = 1 ∧ userMaxRisk db u = "low" ∧
      canUserBorrowItem db now u r ≠ some Deny.subscriptionExpired ∧
      (activeCount db u = 0 → r = "low" → canUserBorrowItem db now u r = none)) ∧
    (canUserBorrowItem db now u r = some Deny.subscriptionExpired →
      ∃ s, subscriptionOf db u = some s ∧ ∃ e, s.expiresAt = some e ∧ e < now) := by
  constructor
  · intro hn
    have hmax : userMaxItems db u = 1 := by
      unfold userMaxItems
      rw [hn]
      rfl
    have hrisk : userMaxRisk db u = "low" := by
      unfold userMaxRisk
      rw [hn]
      rfl
    have hexp : subExpired db now u = false := by
      unfold subExpired
      rw [hn]
    refine ⟨hmax, hrisk, ?_, ?_⟩
    · intro h
      have := (canUserBorrowItem_expired_iff db now u r).mp h
      rw [hexp] at this
      exact Bool.false_ne_true this
    · intro hcnt hr
      rw [canUserBorrowItem_allowed_iff]
      refine ⟨hexp, ?_, ?_⟩
      · rw [hmax, hcnt]
        exact Nat.zero_lt_one
      · rw [hrisk, hr]
  · intro h
    have he := (canUserBorrowItem_expired_iff db now u r).mp h
    unfold subExpired at he
    cases hs : subscriptionOf db u with
    | none => rw [hs] at he; simp at he
    | some s =>
      rw [hs] at he
      dsimp only at he
      cases hexp : s.expiresAt with
      | none => rw [hexp] at he; simp at he
      | some e =>
        rw [hexp] at he
        dsimp only at he
        simp only [Bool.and_eq_true, decide_eq_true_eq] at he
        exact ⟨s, rfl, e, hexp, he.2⟩

/-- Witness for C10 at a concrete state with no subscription row. -/
theorem no_subscription_basic_defaults_witness :
    userMaxItems seedDb 1 = 1 ∧ canUserBorrowItem seedDb 100 1 "low" = none :=
  ⟨((no_subscription_basic_defaults seedDb 100 1 "low").1 (by decide)).1,
   ((no_subscription_basic_defaults seedDb 100 1 "low").1 (by decide)).2.2.2 (by decide) rfl⟩
